import Mathlib

/-!
Shallow embedding of the `pdf2csv` repository (files `fix_csv.py` and
`pdf2csv.py`) and proofs about its spec.

Conventions of the embedding:
* Python `str` is Lean `String`; character classes (`\d`, `\s`) are modelled
  over ASCII, which covers every string the program's own tables and regexes
  produce.
* Python lists are Lean `List`s; in-place index assignment `xs[i] = v`
  becomes `List.set`, applied in the same order as the source.
* A Python function that can raise is modelled with `Option` (`none` = an
  exception propagates).
-/

/-- The 19-column schema header of `fix_csv.py` (identical to `CSV_HEADER`
of `pdf2csv.py`). -/
def EXPECTED_HEADER : List String :=
  ["STATUS", "END TO END ID", "MERCHANT", "AMOUNT", "DUE DATE",
   "CUSTOMER BIC", "CUSTOMER IBAN", "CUSTOMER NAME", "CUSTOMER ID",
   "ADDITIONAL INFO 1", "ADDITIONAL INFO 2", "IMPORTED DATE",
   "MANDATE REFERENCE", "TRANSACTION INFORMATION", "TRANSACTION TYPE NAME",
   "ERROR CODE", "ERROR REASON", "MERCHANT PRODUCT NAME", "HAS CHARGEBACK"]

/-- Model of `MANDATE_LIKE_RE.match v` for `^\d{6,}-\d{4}-\d{2}-\d{2}$`.
Greedy digit runs never need backtracking here because each digit block is
followed by a non-digit (`-` or the end), so `List.span Char.isDigit` is an
exact model.  Python's `$` also matches just before one trailing newline. -/
def isMandateLike (s : String) : Bool :=
  let (d1, r1) := s.toList.span Char.isDigit
  match r1 with
  | '-' :: r2 =>
    let (d2, r3) := r2.span Char.isDigit
    match r3 with
    | '-' :: r4 =>
      let (d3, r5) := r4.span Char.isDigit
      match r5 with
      | '-' :: r6 =>
        let (d4, r7) := r6.span Char.isDigit
        decide (6 ≤ d1.length) && d2.length == 4 && d3.length == 2 &&
          d4.length == 2 && (r7.isEmpty || r7 == ['\n'])
      | _ => false
    | _ => false
  | _ => false

/-- The loop `for i in range(n): fixed[i] = fields[i]` of `normalize_row`
(with `n = min(9, len(fields))`, so every access is in range). -/
def copyLead (fixed fields : List String) : Nat → List String
  | 0 => fixed
  | n + 1 => (copyLead fixed fields n).set n (fields.getD n "")

/-- Python `[i for i, v in enumerate(fields) if v]`, enumerating from `i0`. -/
def nonEmptyIdx : List String → Nat → List Nat
  | [], _ => []
  | v :: rest, i =>
    if v ≠ "" then i :: nonEmptyIdx rest (i + 1) else nonEmptyIdx rest (i + 1)

/-- Function `normalize_row` of `fix_csv.py`: return 19-field rows unchanged,
otherwise rebuild a 19-slot row from heuristics (stable prefix copy,
mandate-anchor relocation to slot 13, tail salvage into slots 15/16). -/
def normalize_row (fields : List String) : List String :=
  if fields.length = EXPECTED_HEADER.length then fields
  else
    let fixed := List.replicate EXPECTED_HEADER.length ""
    let fixed := copyLead fixed fields (min 9 fields.length)
    let fixed :=
      match fields.findIdx? (fun v => isMandateLike v) with
      | some id_date_idx => fixed.set 13 (fields.getD id_date_idx "")
      | none => fixed
    let tail := nonEmptyIdx fields 0
    if tail.length ≠ 0 then
      if 2 ≤ tail.length then
        (fixed.set 15 (fields.getD (tail.getD (tail.length - 2) 0) "")).set 16
          (fields.getD (tail.getD (tail.length - 1) 0) "")
      else
        fixed.set 15 (fields.getD (tail.getD (tail.length - 1) 0) "")
    else
      fixed

/-! ## Embedding of `pdf2csv.py` -/

/-- Constant `DEFAULT_MERCHANT` of `pdf2csv.py`. -/
def DEFAULT_MERCHANT : String := "PPS Perfunctio Payment Services GmbH"

/-- Table `ERROR_REASON_MAP`, as an association list in insertion order. -/
def ERROR_REASON_MAP : List (String × String) :=
  [("KC2-BL001", "User in the Blacklist")]

/-- Python `ERROR_REASON_MAP.get(code, "")`. -/
def errorReasonGet (code : String) : String :=
  match ERROR_REASON_MAP.find? (fun pa => pa.1 == code) with
  | some pa => pa.2
  | none => ""

/-- Table `PRODUCT_AMOUNT_BY_TWO_DIGIT`, as an association list in insertion order. -/
def PRODUCT_AMOUNT_BY_TWO_DIGIT : List (String × String) :=
  [("35", "39.90"), ("15", "54.90"), ("25", "54.90")]

/-- Table `PRODUCT_AMOUNT_BY_PREFIX`, as an association list in insertion order. -/
def PRODUCT_AMOUNT_BY_PREFIX : List (String × String) :=
  [("PPS_DB_VPLUS1new", "54.90"), ("PPS_DB_VPLUS2new", "39.90"),
   ("PPS_DB_VPLUS3", "39.90")]

/-- The whitespace class of Python `str.split()` and `\s` (ASCII part). -/
def isPyWs (c : Char) : Bool :=
  c == ' ' || c == '\t' || c == '\n' || c == '\r' || c == '\x0b' || c == '\x0c'

/-- Helper for `pySplit`: `acc` holds the characters of the current token in
reverse. -/
def pySplitAux : List Char → List Char → List String
  | [], acc => if acc.isEmpty then [] else [String.mk acc.reverse]
  | c :: rest, acc =>
    if isPyWs c then
      if acc.isEmpty then pySplitAux rest []
      else String.mk acc.reverse :: pySplitAux rest []
    else pySplitAux rest (c :: acc)

/-- Python `line.split()`: split on whitespace runs, dropping empty pieces. -/
def pySplit (s : String) : List String := pySplitAux s.toList []

/-- Python `re.fullmatch(r"\d+", s)` is not `None`. -/
def isAllDigits (s : String) : Bool :=
  !s.toList.isEmpty && s.toList.all Char.isDigit

/-- Does `20\d{6}` match at offset `k` of `l`? -/
def matchDate8At (l : List Char) (k : Nat) : Bool :=
  match l.drop k with
  | '2' :: '0' :: d1 :: d2 :: d3 :: d4 :: d5 :: d6 :: _ =>
    d1.isDigit && d2.isDigit && d3.isDigit && d4.isDigit && d5.isDigit && d6.isDigit
  | _ => false

/-- Python `re.search(r"(20\d{6})", ...)`: the leftmost match, as its 8 characters. -/
def findDate8 : List Char → Option String
  | [] => none
  | c :: rest =>
    if matchDate8At (c :: rest) 0 then some (String.mk ((c :: rest).take 8))
    else findDate8 rest

/-- Function `find_date_yyyymmdd_in_filename` of `pdf2csv.py`. -/
def find_date_yyyymmdd_in_filename (filename : String) : String :=
  (findDate8 filename.toList).getD ""

/-- Does `(\d{2})new` match at offset `k` of `l`?  Returns the two digits. -/
def matchTwoDigitNewAt (l : List Char) (k : Nat) : Option String :=
  match l.drop k with
  | c0 :: c1 :: 'n' :: 'e' :: 'w' :: _ =>
    if c0.isDigit && c1.isDigit then some (String.mk [c0, c1]) else none
  | _ => none

/-- Python `re.search(r"(\d{2})new", ...)`: group 1 of the leftmost match. -/
def findTwoDigitNew : List Char → Option String
  | [] => none
  | c :: rest =>
    match matchTwoDigitNewAt (c :: rest) 0 with
    | some two => some two
    | none => findTwoDigitNew rest

/-- Python `filename.startswith(p)` (via character-list comparison, so that the
kernel can evaluate it). -/
def strStartsWith (s p : String) : Bool := p.toList.isPrefixOf s.toList

/-- Function `detect_amount_from_filename` of `pdf2csv.py`: explicit name prefixes
override the generic two-digit-before-"new" mapping. -/
def detect_amount_from_filename (filename : String) : String :=
  match PRODUCT_AMOUNT_BY_PREFIX.find? (fun pa => strStartsWith filename pa.1) with
  | some pa => pa.2
  | none =>
    match findTwoDigitNew filename.toList with
    | some two =>
      match PRODUCT_AMOUNT_BY_TWO_DIGIT.find? (fun pa => pa.1 == two) with
      | some pa => pa.2
      | none => ""
    | none => ""

/-- Digit character to its value. -/
def digitVal (c : Char) : Nat := c.toNat - '0'.toNat

/-- Gregorian leap year. -/
def isLeapYear (y : Nat) : Bool := (y % 4 == 0 && y % 100 != 0) || y % 400 == 0

/-- Days in a month of the Gregorian calendar. -/
def daysInMonth (y m : Nat) : Nat :=
  if m = 2 then (if isLeapYear y then 29 else 28)
  else if m = 4 || m = 6 || m = 9 || m = 11 then 30 else 31

/-- Printf-style `%0wd` zero padding. -/
def zeroPad (w n : Nat) : String :=
  String.mk (List.replicate (w - (toString n).length) '0') ++ toString n

/-- Function `yyyymmdd_to_first_of_month` of `pdf2csv.py`.  The source feeds the
result of `find_date_yyyymmdd_in_filename` into `dateutil.parser.parse`, so
the argument is either `""` (returned unchanged) or an 8-character `20\d{6}`
match; dateutil reads such an 8-digit numeric string as `YYYYMMDD` and
raises (`none`) when month/day do not form a valid calendar date.  Other
shapes are unreachable from this program and likewise modelled as a raise. -/
def yyyymmdd_to_first_of_month (yyyymmdd : String) : Option String :=
  if yyyymmdd = "" then some ""
  else
    match yyyymmdd.toList with
    | [y1, y2, y3, y4, m1, m2, d1, d2] =>
      if [y1, y2, y3, y4, m1, m2, d1, d2].all Char.isDigit then
        let year := 1000 * digitVal y1 + 100 * digitVal y2 + 10 * digitVal y3 + digitVal y4
        let month := 10 * digitVal m1 + digitVal m2
        let day := 10 * digitVal d1 + digitVal d2
        if 1 ≤ month && month ≤ 12 && 1 ≤ day && day ≤ daysInMonth year month then
          some (zeroPad 4 year ++ "-" ++ zeroPad 2 month ++ "-01")
        else none
      else none
    | _ => none

/-- One output record: the `Dict[str, str]` built per accepted line, with one
field per `CSV_HEADER` column. -/
structure Record where
  status : String
  endToEndId : String
  merchant : String
  amount : String
  dueDate : String
  customerBic : String
  customerIban : String
  customerName : String
  customerId : String
  additionalInfo1 : String
  additionalInfo2 : String
  importedDate : String
  mandateReference : String
  transactionInformation : String
  transactionTypeName : String
  errorCode : String
  errorReason : String
  merchantProductName : String
  hasChargeback : String
  deriving Repr, DecidableEq

/-- Strip an exact literal from the front of the input (regex literal text). -/
def stripLit : List Char → List Char → Option (List Char)
  | [], l => some l
  | _ :: _, [] => none
  | p :: ps, c :: cs => if c = p then stripLit ps cs else none

/-- Strip `\s+` (one or more whitespace characters) from the front. -/
def stripWs1 (l : List Char) : Option (List Char) :=
  let (ws, rest) := l.span isPyWs
  if ws.isEmpty then none else some rest

/-- Python `re.match(r"^Dateiname\s+Name\s+Kundennummer\s+Fehler$", line)`:
each `\s+` is greedy but followed by a non-whitespace letter, so taking the
whole whitespace run is exact; `$` also matches before one trailing newline. -/
def headerMatch (line : String) : Bool :=
  match (((((stripLit "Dateiname".toList line.toList).bind stripWs1).bind
      (stripLit "Name".toList)).bind stripWs1).bind
      (stripLit "Kundennummer".toList)).bind stripWs1 |>.bind
      (stripLit "Fehler".toList) with
  | some r => r.isEmpty || r == ['\n']
  | none => false

/-- The body of the `for line in lines[start_index:]` loop of
`parse_records_from_lines`: `some none` = line silently skipped,
`some (some r)` = record `r` appended, `none` = an exception propagates
(from `dateutil` inside `yyyymmdd_to_first_of_month`). -/
def processLine (line : String) : Option (Option Record) :=
  let parts := pySplit line
  if parts.length < 4 then some none
  else
    let filename_token := parts.headD ""
    let error_code := parts.getD (parts.length - 1) ""
    let customer_id := parts.getD (parts.length - 2) ""
    let customer_name := String.intercalate " " ((parts.drop 1).take (parts.length - 3))
    if !isAllDigits customer_id then some none
    else
      let yyyymmdd := find_date_yyyymmdd_in_filename filename_token
      match yyyymmdd_to_first_of_month yyyymmdd with
      | none => none
      | some mandate_date =>
        let id_date_value :=
          if mandate_date ≠ "" then customer_id ++ "-" ++ mandate_date else customer_id
        some (some {
          status := "REJECTED"
          endToEndId := ""
          merchant := DEFAULT_MERCHANT
          amount := detect_amount_from_filename filename_token
          dueDate := ""
          customerBic := ""
          customerIban := ""
          customerName := customer_name
          customerId := customer_id
          additionalInfo1 := ""
          additionalInfo2 := ""
          importedDate := ""
          mandateReference := ""
          transactionInformation := id_date_value
          transactionTypeName := ""
          errorCode := error_code
          errorReason := errorReasonGet error_code
          merchantProductName := ""
          hasChargeback := "" })

/-- The per-line loop of `parse_records_from_lines`, over the data region
(after any skipped header line), accumulating records in input order and
propagating an exception (`none`) as soon as one is raised. -/
def parseDataLines : List String → Option (List Record)
  | [] => some []
  | l :: rest =>
    match processLine l with
    | none => none
    | some none => parseDataLines rest
    | some (some r) => (parseDataLines rest).map (fun rs => r :: rs)

/-- Function `parse_records_from_lines` of `pdf2csv.py`: skip a leading German header
caption line, then run the per-line loop. -/
def parse_records_from_lines (lines : List String) : Option (List Record) :=
  match lines with
  | [] => some []
  | first :: rest =>
    if headerMatch first then parseDataLines rest
    else parseDataLines (first :: rest)

/-! ## Shared lemmas about the embedding -/

theorem copyLead_length (fixed fields : List String) (n : Nat) :
    (copyLead fixed fields n).length = fixed.length := by
  induction n with
  | zero => rfl
  | succ k ih => simp [copyLead, ih]

theorem copyLead_getD (fixed fields : List String) (n j : Nat) :
    (copyLead fixed fields n).getD j "" =
      if j < n ∧ j < fixed.length then fields.getD j "" else fixed.getD j "" := by
  induction n with
  | zero => simp [copyLead]
  | succ k ih =>
    simp only [copyLead, List.getD_eq_getElem?_getD, List.getElem?_set,
      copyLead_length] at ih ⊢
    by_cases hk : k = j
    · subst hk
      by_cases hl : k < fixed.length
      · simp [hl, Nat.lt_succ_self]
      · have hfix : fixed[k]? = none := List.getElem?_eq_none (Nat.le_of_not_lt hl)
        simp [hl, hfix]
    · rw [if_neg hk, ih]
      have hiff : (j < k ∧ j < fixed.length) ↔ (j < k + 1 ∧ j < fixed.length) := by omega
      rw [if_congr hiff rfl rfl]

theorem getD_replicate_empty (n j : Nat) :
    (List.replicate n "").getD j "" = "" := by
  simp only [List.getD_eq_getElem?_getD, List.getElem?_replicate]
  split <;> rfl

theorem nonEmptyIdx_map_getD : ∀ (fs pre : List String),
    (nonEmptyIdx fs pre.length).map (fun j => (pre ++ fs).getD j "") =
      fs.filter (fun v => v ≠ "")
  | [], _ => by simp [nonEmptyIdx]
  | v :: rest, pre => by
    have key := nonEmptyIdx_map_getD rest (pre ++ [v])
    have hlen : (pre ++ [v]).length = pre.length + 1 := by simp
    rw [hlen] at key
    have happ : (pre ++ [v]) ++ rest = pre ++ v :: rest := by simp
    rw [happ] at key
    have hhead : (pre ++ v :: rest).getD pre.length "" = v := by
      simp [List.getD_eq_getElem?_getD, List.getElem?_append_right (Nat.le_refl _)]
    by_cases hv : v = ""
    · subst hv
      simp only [nonEmptyIdx, ne_eq, not_true_eq_false, if_false, key,
        List.filter_cons, decide_not]
      simp
    · simp only [nonEmptyIdx, ne_eq, hv, not_false_eq_true, if_true, List.map_cons,
        key, List.filter_cons, hhead]
      simp [hv]

theorem getD_map_nat (l : List Nat) (f : Nat → String) (k : Nat) (hk : k < l.length) :
    (l.map f).getD k "" = f (l.getD k 0) := by
  simp [List.getD_eq_getElem?_getD, List.getElem?_eq_getElem hk,
    List.getElem?_eq_getElem (by simpa using hk : k < (l.map f).length)]

theorem EXPECTED_HEADER_length : EXPECTED_HEADER.length = 19 := rfl

theorem getD_set_ne (i j : Nat) (hij : i ≠ j) (l : List String) (v : String) :
    (l.set i v).getD j "" = l.getD j "" := by
  simp [List.getD_eq_getElem?_getD, List.getElem?_set_ne hij]

theorem getD_set_self (i : Nat) (l : List String) (v : String) (hi : i < l.length) :
    (l.set i v).getD i "" = v := by
  simp [List.getD_eq_getElem?_getD, List.getElem?_set_self hi]

theorem normalize_row_getD_other (fields : List String) (h : fields.length ≠ 19)
    (j : Nat) (h13 : j ≠ 13) (h15 : j ≠ 15) (h16 : j ≠ 16) :
    (normalize_row fields).getD j "" =
      if j < 9 ∧ j < fields.length then fields.getD j "" else "" := by
  have hb : (copyLead (List.replicate EXPECTED_HEADER.length "") fields
      (min 9 fields.length)).getD j "" =
      if j < 9 ∧ j < fields.length then fields.getD j "" else "" := by
    rw [copyLead_getD]
    simp only [List.length_replicate, EXPECTED_HEADER_length]
    by_cases hjl : j < 9 ∧ j < fields.length
    · rw [if_pos ⟨by omega, by omega⟩, if_pos hjl]
    · rw [if_neg (by omega), if_neg hjl, getD_replicate_empty]
  have hne : ¬ fields.length = EXPECTED_HEADER.length := by
    rw [EXPECTED_HEADER_length]; exact h
  unfold normalize_row
  rw [if_neg hne, ← hb]
  dsimp only
  cases hfi : fields.findIdx? (fun v => isMandateLike v) <;> dsimp only <;> split_ifs <;>
    · try simp only [getD_set_ne 16 j (fun hh => h16 hh.symm),
        getD_set_ne 15 j (fun hh => h15 hh.symm),
        getD_set_ne 13 j (fun hh => h13 hh.symm)]
      try rfl

theorem normalize_row_getD_13 (fields : List String) (h : fields.length ≠ 19) :
    (normalize_row fields).getD 13 "" =
      match fields.findIdx? (fun v => isMandateLike v) with
      | some i => fields.getD i ""
      | none => "" := by
  have hb : (copyLead (List.replicate EXPECTED_HEADER.length "") fields
      (min 9 fields.length)).getD 13 "" = "" := by
    rw [copyLead_getD, if_neg (by omega), getD_replicate_empty]
  have hblen : (copyLead (List.replicate EXPECTED_HEADER.length "") fields
      (min 9 fields.length)).length = 19 := by
    rw [copyLead_length, List.length_replicate, EXPECTED_HEADER_length]
  have hne : ¬ fields.length = EXPECTED_HEADER.length := by
    rw [EXPECTED_HEADER_length]; exact h
  unfold normalize_row
  rw [if_neg hne]
  dsimp only
  cases hfi : fields.findIdx? (fun v => isMandateLike v) <;> dsimp only <;> split_ifs <;>
    · try simp only [getD_set_ne 16 13 (by omega), getD_set_ne 15 13 (by omega)]
      try rw [getD_set_self 13 _ _ (by rw [hblen]; omega)]
      try exact hb
      try rfl

theorem normalize_row_getD_tail (fields : List String) (h : fields.length ≠ 19) :
    ((normalize_row fields).getD 15 "", (normalize_row fields).getD 16 "") =
      (if 2 ≤ (fields.filter (fun v => v ≠ "")).length then
        ((fields.filter (fun v => v ≠ "")).getD ((fields.filter (fun v => v ≠ "")).length - 2) "",
         (fields.filter (fun v => v ≠ "")).getD ((fields.filter (fun v => v ≠ "")).length - 1) "")
      else if (fields.filter (fun v => v ≠ "")).length = 1 then
        ((fields.filter (fun v => v ≠ "")).getD 0 "", "")
      else ("", "")) := by
  have hmap : (nonEmptyIdx fields 0).map (fun j => fields.getD j "") =
      fields.filter (fun v => v ≠ "") := by
    simpa using nonEmptyIdx_map_getD fields []
  have hlen : (nonEmptyIdx fields 0).length = (fields.filter (fun v => v ≠ "")).length := by
    rw [← hmap, List.length_map]
  have hval : ∀ k, k < (nonEmptyIdx fields 0).length →
      fields.getD ((nonEmptyIdx fields 0).getD k 0) "" =
        (fields.filter (fun v => v ≠ "")).getD k "" := by
    intro k hk
    rw [← hmap, getD_map_nat _ _ k hk]
  have hne : ¬ fields.length = EXPECTED_HEADER.length := by
    rw [EXPECTED_HEADER_length]; exact h
  have hblen : (copyLead (List.replicate EXPECTED_HEADER.length "") fields
      (min 9 fields.length)).length = 19 := by
    rw [copyLead_length, List.length_replicate, EXPECTED_HEADER_length]
  have hb15 : (copyLead (List.replicate EXPECTED_HEADER.length "") fields
      (min 9 fields.length)).getD 15 "" = "" := by
    rw [copyLead_getD, if_neg (by omega), getD_replicate_empty]
  have hb16 : (copyLead (List.replicate EXPECTED_HEADER.length "") fields
      (min 9 fields.length)).getD 16 "" = "" := by
    rw [copyLead_getD, if_neg (by omega), getD_replicate_empty]
  unfold normalize_row
  rw [if_neg hne, ← hlen]
  dsimp only
  cases hfi : fields.findIdx? (fun v => isMandateLike v) <;> dsimp only <;> split_ifs
  all_goals first
  | (exfalso; omega)
  | (rw [getD_set_ne 16 15 (by omega),
        getD_set_self 15 _ _ (by simp [List.length_set, hblen]),
        getD_set_self 16 _ _ (by simp [List.length_set, hblen]),
        hval ((nonEmptyIdx fields 0).length - 2) (by omega),
        hval ((nonEmptyIdx fields 0).length - 1) (by omega)])
  | (rw [getD_set_ne 15 16 (by omega),
        getD_set_self 15 _ _ (by simp [List.length_set, hblen]),
        hval ((nonEmptyIdx fields 0).length - 1) (by omega),
        getD_set_ne 13 16 (by omega), hb16,
        show (nonEmptyIdx fields 0).length - 1 = 0 from by omega])
  | (rw [getD_set_ne 15 16 (by omega),
        getD_set_self 15 _ _ (by simp [List.length_set, hblen]),
        hval ((nonEmptyIdx fields 0).length - 1) (by omega), hb16,
        show (nonEmptyIdx fields 0).length - 1 = 0 from by omega])
  | (rw [getD_set_ne 13 15 (by omega), getD_set_ne 13 16 (by omega), hb15, hb16])
  | (rw [hb15, hb16])

/-! ## Claims about `normalize_row` (`fix_csv.py`) -/

/-- C1: for every input list of string fields, of any length from 0 to
arbitrarily large, `normalize_row` returns a list of exactly 19 strings. -/
theorem claim_C1_normalize_row_always_19 (fields : List String) :
    (normalize_row fields).length = 19 := by
  unfold normalize_row
  split
  · rename_i hl
    rw [hl, EXPECTED_HEADER_length]
  · dsimp only
    cases hfi : fields.findIdx? (fun v => isMandateLike v) <;> dsimp only <;> split_ifs <;>
      simp [List.length_set, copyLead_length, EXPECTED_HEADER_length]

/-- C2: for every input list of exactly 19 string fields, `normalize_row`
returns that list unchanged. -/
theorem claim_C2_normalize_row_identity_19 (fields : List String)
    (h : fields.length = 19) : normalize_row fields = fields := by
  unfold normalize_row
  rw [if_pos (by rw [EXPECTED_HEADER_length]; exact h)]

/-- Witness for C2 at a concrete 19-field row. -/
theorem claim_C2_witness :
    (List.replicate 19 "x").length = 19 ∧
      normalize_row (List.replicate 19 "x") = List.replicate 19 "x" :=
  ⟨by decide, claim_C2_normalize_row_identity_19 (List.replicate 19 "x") (by decide)⟩

/-- C3 counterexample: the claim quantifies over every row, but a 19-field
row is returned unchanged, so a mandate-like token in slot 0 (the first, and
only, matching token) does not appear in output slot 13. -/
theorem claim_C3_counterexample :
    ("123456-2024-01-01" :: List.replicate 18 "x").findIdx?
        (fun v => isMandateLike v) = some 0 ∧
      ("123456-2024-01-01" :: List.replicate 18 "x").getD 0 "" = "123456-2024-01-01" ∧
      (normalize_row ("123456-2024-01-01" :: List.replicate 18 "x")).getD 13 "" ≠
        "123456-2024-01-01" := by
  refine ⟨by decide, by decide, by decide⟩

/-- C3 amended: for every input row whose length is not 19 and that contains
at least one token matching the mandate-like pattern, the first such token
appears verbatim at index 13 (TRANSACTION INFORMATION) of the output. -/
theorem claim_C3_amended_mandate_to_13 (fields : List String)
    (h : fields.length ≠ 19) (i : Nat)
    (hi : fields.findIdx? (fun v => isMandateLike v) = some i) :
    (normalize_row fields).getD 13 "" = fields.getD i "" := by
  rw [normalize_row_getD_13 fields h, hi]

/-- Witness for the amended C3 at a concrete 2-field row. -/
theorem claim_C3_witness :
    (normalize_row ["a", "123456-2024-01-01"]).getD 13 "" = "123456-2024-01-01" := by
  have h := claim_C3_amended_mandate_to_13 ["a", "123456-2024-01-01"]
    (by decide) 1 (by decide)
  simpa using h

/-- C5: for every input row whose length is not 19: if at least two
non-empty fields exist, slot 15 gets the second-to-last non-empty value and
slot 16 the last; if exactly one exists, slot 15 gets it and slot 16 stays
empty; if none exists, both stay empty. -/
theorem claim_C5_tail_salvage (fields : List String) (h : fields.length ≠ 19) :
    (2 ≤ (fields.filter (fun v => v ≠ "")).length →
      (normalize_row fields).getD 15 "" =
          (fields.filter (fun v => v ≠ "")).getD
            ((fields.filter (fun v => v ≠ "")).length - 2) "" ∧
        (normalize_row fields).getD 16 "" =
          (fields.filter (fun v => v ≠ "")).getD
            ((fields.filter (fun v => v ≠ "")).length - 1) "") ∧
    ((fields.filter (fun v => v ≠ "")).length = 1 →
      (normalize_row fields).getD 15 "" = (fields.filter (fun v => v ≠ "")).getD 0 "" ∧
        (normalize_row fields).getD 16 "" = "") ∧
    ((fields.filter (fun v => v ≠ "")).length = 0 →
      (normalize_row fields).getD 15 "" = "" ∧
        (normalize_row fields).getD 16 "" = "") := by
  have ht := normalize_row_getD_tail fields h
  refine ⟨fun h2 => ?_, fun h1 => ?_, fun h0 => ?_⟩
  · rw [if_pos h2] at ht
    exact ⟨congrArg Prod.fst ht, congrArg Prod.snd ht⟩
  · rw [if_neg (by omega), if_pos h1] at ht
    exact ⟨congrArg Prod.fst ht, congrArg Prod.snd ht⟩
  · rw [if_neg (by omega), if_neg (by omega)] at ht
    exact ⟨congrArg Prod.fst ht, congrArg Prod.snd ht⟩

/-- Witness for C5 at a concrete 3-field row with two non-empty fields. -/
theorem claim_C5_witness :
    (normalize_row ["a", "", "b"]).getD 15 "" = "a" ∧
      (normalize_row ["a", "", "b"]).getD 16 "" = "b" := by
  have h := (claim_C5_tail_salvage ["a", "", "b"] (by decide)).1 (by decide)
  simpa using h

/-- C10: for every input row whose length is not 19, slots 0..8 hold the
first `min(9, len(fields))` input values verbatim (the rest of 0..8 empty),
and slots 9, 10, 11, 12, 14, 17 and 18 are always the empty string. -/
theorem claim_C10_frame (fields : List String) (h : fields.length ≠ 19) :
    (∀ j, j < 9 →
      (normalize_row fields).getD j "" =
        (if j < fields.length then fields.getD j "" else "")) ∧
    (∀ j, j ∈ ([9, 10, 11, 12, 14, 17, 18] : List Nat) →
      (normalize_row fields).getD j "" = "") := by
  constructor
  · intro j hj
    rw [normalize_row_getD_other fields h j (by omega) (by omega) (by omega)]
    by_cases hl : j < fields.length
    · rw [if_pos ⟨hj, hl⟩, if_pos hl]
    · rw [if_neg (by omega), if_neg hl]
  · intro j hj
    fin_cases hj <;>
      rw [normalize_row_getD_other fields h _ (by omega) (by omega) (by omega)] <;>
      simp

/-- Witness for C10 at a concrete 2-field row. -/
theorem claim_C10_witness :
    (normalize_row ["a", "b"]).getD 0 "" = "a" ∧
      (normalize_row ["a", "b"]).getD 14 "" = "" := by
  have h := claim_C10_frame ["a", "b"] (by decide)
  constructor
  · have h0 := h.1 0 (by decide)
    simpa using h0
  · exact h.2 14 (by decide)

/-! ## Lemmas about the regex-search embeddings -/

theorem findDate8_eq_none : ∀ l : List Char,
    (∀ k, k < l.length → matchDate8At l k = false) → findDate8 l = none := by
  intro l
  induction l with
  | nil => intro _; rfl
  | cons c rest ih =>
    intro hall
    have h0 : matchDate8At (c :: rest) 0 = false := hall 0 (by simp)
    unfold findDate8
    rw [h0]
    simp only [Bool.false_eq_true, if_false]
    exact ih (fun k hk => hall (k + 1) (by simpa using Nat.succ_lt_succ hk))

theorem findTwoDigitNew_eq_of_leftmost : ∀ (l : List Char) (k : Nat) (two : String),
    matchTwoDigitNewAt l k = some two →
    (∀ j, j < k → matchTwoDigitNewAt l j = none) →
    findTwoDigitNew l = some two := by
  intro l
  induction l with
  | nil =>
    intro k two hk _
    exact absurd hk (by simp [matchTwoDigitNewAt])
  | cons c rest ih =>
    intro k two hk hmin
    cases k with
    | zero =>
      unfold findTwoDigitNew
      rw [hk]
    | succ j =>
      have h0 : matchTwoDigitNewAt (c :: rest) 0 = none := hmin 0 (Nat.succ_pos j)
      unfold findTwoDigitNew
      rw [h0]
      exact ih j two hk (fun i hi => hmin (i + 1) (Nat.succ_lt_succ hi))

theorem findTwoDigitNew_eq_none : ∀ l : List Char,
    (∀ k, k < l.length → matchTwoDigitNewAt l k = none) → findTwoDigitNew l = none := by
  intro l
  induction l with
  | nil => intro _; rfl
  | cons c rest ih =>
    intro hall
    have h0 : matchTwoDigitNewAt (c :: rest) 0 = none := hall 0 (by simp)
    unfold findTwoDigitNew
    rw [h0]
    exact ih (fun k hk => hall (k + 1) (by simpa using Nat.succ_lt_succ hk))

theorem strStartsWith_false_of (f q p : String) (hq : strStartsWith f q = true)
    (hlen : q.toList.length ≤ p.toList.length)
    (hnp : q.toList.isPrefixOf p.toList = false) :
    strStartsWith f p = false := by
  cases hx : strStartsWith f p with
  | false => rfl
  | true =>
    exfalso
    have hp2 : p.toList <+: f.toList := List.isPrefixOf_iff_prefix.mp hx
    have hq2 : q.toList <+: f.toList := List.isPrefixOf_iff_prefix.mp hq
    have hqp : q.toList <+: p.toList := List.prefix_of_prefix_length_le hq2 hp2 hlen
    rw [← List.isPrefixOf_iff_prefix, hnp] at hqp
    exact Bool.false_ne_true hqp

/-! ## Claims about `pdf2csv.py` -/

/-- C4 (exhibit of the code bug): the parser does not always terminate
normally.  The line "report_20240230.pdf Jane 123456 KC2-BL001" is accepted,
its filename token matches `20\d{6}` as "20240230", but February 30 is not a
valid calendar date, so `dateutil.parser.parse` raises (modelled as `none`)
instead of degrading to empty fields. -/
theorem claim_C4_raises_on_invalid_date :
    parse_records_from_lines ["report_20240230.pdf Jane 123456 KC2-BL001"] = none := by
  decide

/-- C6: the sample line parses to exactly one record with CUSTOMER NAME
"Jane Doe", CUSTOMER ID "123456", ERROR CODE "KC2-BL001", ERROR REASON
"User in the Blacklist", AMOUNT "54.90" and TRANSACTION INFORMATION
"123456-2024-03-01". -/
theorem claim_C6_example_line :
    parse_records_from_lines ["PPS_DB_VPLUS1new_20240301.pdf Jane Doe 123456 KC2-BL001"] =
      some [{ status := "REJECTED"
              endToEndId := ""
              merchant := "PPS Perfunctio Payment Services GmbH"
              amount := "54.90"
              dueDate := ""
              customerBic := ""
              customerIban := ""
              customerName := "Jane Doe"
              customerId := "123456"
              additionalInfo1 := ""
              additionalInfo2 := ""
              importedDate := ""
              mandateReference := ""
              transactionInformation := "123456-2024-03-01"
              transactionTypeName := ""
              errorCode := "KC2-BL001"
              errorReason := "User in the Blacklist"
              merchantProductName := ""
              hasChargeback := "" }] := by
  decide

/-- C7 counterexample: in "99new35new" the digits "35" immediately precede
an occurrence of "new" and are a key of the two-digit table (mapping to
"39.90"), and no campaign prefix matches, yet the code inspects only the
leftmost `(\d{2})new` match "99new" (an unknown key) and returns "". -/
theorem claim_C7_counterexample :
    ( PRODUCT_AMOUNT_BY_PREFIX.all (fun pa => !strStartsWith "99new35new" pa.1)) = true ∧
      matchTwoDigitNewAt "99new35new".toList 5 = some "35" ∧
      PRODUCT_AMOUNT_BY_TWO_DIGIT.find? (fun pa => pa.1 == "35") =
        some ("35", "39.90") ∧
      detect_amount_from_filename "99new35new" = "" := by
  refine ⟨by decide, by decide, by decide, by decide⟩

/-- C7 amended: the amount is determined by (a) a known campaign-name prefix
match, which takes precedence; (b) otherwise by the LEFTMOST occurrence of
two digits immediately followed by "new": if its digits are a key of the
two-digit table the result is that table's amount, and an unknown key falls
through to empty even when a later occurrence has a known key; (c) with no
occurrence at all the result is the empty string. -/
theorem claim_C7_amended_amount_priority (f : String) :
    (∀ pa ∈ PRODUCT_AMOUNT_BY_PREFIX, strStartsWith f pa.1 = true →
      detect_amount_from_filename f = pa.2) ∧
    ((∀ pa ∈ PRODUCT_AMOUNT_BY_PREFIX, strStartsWith f pa.1 = false) →
      (∀ k two, matchTwoDigitNewAt f.toList k = some two →
        (∀ j, j < k → matchTwoDigitNewAt f.toList j = none) →
        detect_amount_from_filename f =
          (Option.map (fun pa => pa.2)
            ( PRODUCT_AMOUNT_BY_TWO_DIGIT.find? (fun pa => pa.1 == two))).getD "") ∧
      ((∀ k, k < f.toList.length → matchTwoDigitNewAt f.toList k = none) →
        detect_amount_from_filename f = "")) := by
  constructor
  · intro pa hmem hs
    fin_cases hmem
    · unfold detect_amount_from_filename
      simp only [ PRODUCT_AMOUNT_BY_PREFIX]
      rw [@List.find?_cons_of_pos _ (fun (pa : String × String) => strStartsWith f pa.1) _ _ hs]
    · have h1 : strStartsWith f "PPS_DB_VPLUS1new" = false :=
        strStartsWith_false_of f "PPS_DB_VPLUS2new" "PPS_DB_VPLUS1new" hs
          (by decide) (by decide)
      unfold detect_amount_from_filename
      simp only [ PRODUCT_AMOUNT_BY_PREFIX]
      rw [List.find?_cons_of_neg _ (by simp [h1]), @List.find?_cons_of_pos _ (fun (pa : String × String) => strStartsWith f pa.1) _ _ hs]
    · have h1 : strStartsWith f "PPS_DB_VPLUS1new" = false :=
        strStartsWith_false_of f "PPS_DB_VPLUS3" "PPS_DB_VPLUS1new" hs
          (by decide) (by decide)
      have h2 : strStartsWith f "PPS_DB_VPLUS2new" = false :=
        strStartsWith_false_of f "PPS_DB_VPLUS3" "PPS_DB_VPLUS2new" hs
          (by decide) (by decide)
      unfold detect_amount_from_filename
      simp only [ PRODUCT_AMOUNT_BY_PREFIX]
      rw [List.find?_cons_of_neg _ (by simp [h1]), List.find?_cons_of_neg _ (by simp [h2]),
        @List.find?_cons_of_pos _ (fun (pa : String × String) => strStartsWith f pa.1) _ _ hs]
  · intro hpre
    have h1 := hpre ("PPS_DB_VPLUS1new", "54.90") (by decide)
    have h2 := hpre ("PPS_DB_VPLUS2new", "39.90") (by decide)
    have h3 := hpre ("PPS_DB_VPLUS3", "39.90") (by decide)
    have hfind : PRODUCT_AMOUNT_BY_PREFIX.find? (fun pa => strStartsWith f pa.1) = none := by
      simp only [ PRODUCT_AMOUNT_BY_PREFIX]
      rw [List.find?_cons_of_neg _ (by simp [h1]), List.find?_cons_of_neg _ (by simp [h2]),
        List.find?_cons_of_neg _ (by simp [h3])]
      rfl
    constructor
    · intro k two hk hmin
      unfold detect_amount_from_filename
      rw [hfind]
      dsimp only
      rw [findTwoDigitNew_eq_of_leftmost f.toList k two hk hmin]
      cases hf : PRODUCT_AMOUNT_BY_TWO_DIGIT.find? (fun pa => pa.1 == two) with
      | none => simp [hf]
      | some pb => simp [hf]
    · intro hall
      unfold detect_amount_from_filename
      rw [hfind]
      dsimp only
      rw [findTwoDigitNew_eq_none f.toList hall]

/-- Witness for the amended C7: a filename matched by the second campaign
prefix gets that prefix's amount. -/
theorem claim_C7_witness :
    detect_amount_from_filename "PPS_DB_VPLUS2new_20240301.pdf" = "39.90" :=
  (claim_C7_amended_amount_priority "PPS_DB_VPLUS2new_20240301.pdf").1
    ("PPS_DB_VPLUS2new", "39.90") (by decide) (by decide)

/-- C8: a line with fewer than 4 whitespace-separated tokens, or one whose
second-to-last token is not composed entirely of digits, yields no record
and no error: the loop body skips it, the loop over any surrounding data
lines behaves as if it were absent, and so does `parse_records_from_lines`
whenever such a line is not the first input line. -/
theorem claim_C8_skip_noise_lines (line : String)
    (h : (pySplit line).length < 4 ∨
      (4 ≤ (pySplit line).length ∧
        isAllDigits ((pySplit line).getD ((pySplit line).length - 2) "") = false)) :
    processLine line = some none ∧
    (∀ pre rest : List String,
      parseDataLines (pre ++ line :: rest) = parseDataLines (pre ++ rest)) ∧
    (∀ hd : String, ∀ pre rest : List String,
      parse_records_from_lines (hd :: (pre ++ line :: rest)) =
        parse_records_from_lines (hd :: (pre ++ rest))) := by
  have hskip : processLine line = some none := by
    unfold processLine
    rcases h with h4 | ⟨hge, hdig⟩
    · rw [if_pos h4]
    · rw [if_neg (by omega)]
      dsimp only
      rw [hdig]
      rfl
  have hdrop : ∀ pre rest : List String,
      parseDataLines (pre ++ line :: rest) = parseDataLines (pre ++ rest) := by
    intro pre
    induction pre with
    | nil =>
      intro rest
      simp only [List.nil_append, parseDataLines, hskip]
    | cons p ps ih =>
      intro rest
      simp only [List.cons_append, parseDataLines, List.append_eq, ih]
  refine ⟨hskip, hdrop, ?_⟩
  intro hd pre rest
  simp only [parse_records_from_lines]
  by_cases hh : headerMatch hd = true
  · rw [if_pos hh, if_pos hh, hdrop pre rest]
  · rw [if_neg hh, if_neg hh]
    exact hdrop (hd :: pre) rest

/-- Witness for C8: a 3-token line is skipped and dropped from the loop. -/
theorem claim_C8_witness :
    processLine "a b c" = some none ∧
      parseDataLines ["a b c", "f.pdf J 1 E"] = parseDataLines ["f.pdf J 1 E"] := by
  have h := claim_C8_skip_noise_lines "a b c" (Or.inl (by decide))
  exact ⟨h.1, h.2.1 [] ["f.pdf J 1 E"]⟩

/-- C9: for every accepted line (one producing a record), if the filename
token has no substring matching `20\d{6}` then the derived date is empty and
TRANSACTION INFORMATION is the bare customer id; and whenever a non-empty
derived date exists, TRANSACTION INFORMATION is `<customerId>-<date>`. -/
theorem claim_C9_transaction_info (line : String) (r : Record)
    (h : processLine line = some (some r)) :
    ((∀ k, k < ((pySplit line).headD "").toList.length →
        matchDate8At ((pySplit line).headD "").toList k = false) →
      find_date_yyyymmdd_in_filename ((pySplit line).headD "") = "" ∧
        r.transactionInformation = r.customerId) ∧
    (∀ d, yyyymmdd_to_first_of_month
          (find_date_yyyymmdd_in_filename ((pySplit line).headD "")) = some d →
      d ≠ "" → r.transactionInformation = r.customerId ++ "-" ++ d) := by
  unfold processLine at h
  dsimp only at h
  split at h
  · exact absurd h (by simp)
  · split at h
    · exact absurd h (by simp)
    · split at h
      · exact absurd h (by simp)
      · rename_i md heq
        simp only [Option.some.injEq] at h
        subst h
        constructor
        · intro hnod
          have hfd : find_date_yyyymmdd_in_filename ((pySplit line).headD "") = "" := by
            unfold find_date_yyyymmdd_in_filename
            rw [findDate8_eq_none _ hnod]
            rfl
          refine ⟨hfd, ?_⟩
          rw [hfd] at heq
          rw [show yyyymmdd_to_first_of_month "" = some "" from rfl] at heq
          injection heq with hmd
          dsimp only
          rw [← hmd]
          rw [if_neg (by simp)]
        · intro d hd hne
          rw [heq] at hd
          injection hd with hd2
          subst hd2
          dsimp only
          rw [if_pos hne]

/-- Witness for C9: a dateless filename yields a bare-id transaction info. -/
theorem claim_C9_witness :
    find_date_yyyymmdd_in_filename ((pySplit "file.txt John 123 KC2").headD "") = "" ∧
      ({ status := "REJECTED", endToEndId := "", merchant := DEFAULT_MERCHANT,
         amount := "", dueDate := "", customerBic := "", customerIban := "",
         customerName := "John", customerId := "123", additionalInfo1 := "",
         additionalInfo2 := "", importedDate := "", mandateReference := "",
         transactionInformation := "123", transactionTypeName := "",
         errorCode := "KC2", errorReason := "", merchantProductName := "",
         hasChargeback := "" } : Record).transactionInformation =
      ({ status := "REJECTED", endToEndId := "", merchant := DEFAULT_MERCHANT,
         amount := "", dueDate := "", customerBic := "", customerIban := "",
         customerName := "John", customerId := "123", additionalInfo1 := "",
         additionalInfo2 := "", importedDate := "", mandateReference := "",
         transactionInformation := "123", transactionTypeName := "",
         errorCode := "KC2", errorReason := "", merchantProductName := "",
         hasChargeback := "" } : Record).customerId :=
  (claim_C9_transaction_info "file.txt John 123 KC2" _ (by decide)).1 (by decide)
